import Mathlib

/-!
Verification of the rent-due scheduling and transaction-matching core of the
`template_store` repository, as a shallow embedding in Lean.

Conventions of the embedding:
* Calendar dates are represented in two ways, matching the two ways the Python
  code manipulates them.  Where only day arithmetic and weekdays matter
  (the weekly branch of `RentChecker.calculate_expected_rent_date`, the fetch
  window of `AkahuService.fetch_rent_due_transactions`), a date is its
  proleptic Gregorian ordinal (an `Int`), exactly as in `datetime.date.toordinal`;
  ordinal 1 is a Monday, so `weekday = (ordinal - 1) % 7` with Monday = 0,
  which is the `date.weekday()` convention.  Where the code manipulates the
  year/month/day fields directly (the monthly branch), a date is a `Ymd` record.
* Python floats that hold currency amounts and confidence scores are modelled
  as rationals; at every comparison performed by the code the double rounding
  error is far below the decision boundaries involved, so the rational model
  decides each comparison exactly as the float code does.
* The sqlite transactions table is modelled as the list of stored rows, and
  `Transaction.create_transaction` as a pure function from the table to the
  new table plus the optionally created row.
* Provider calls and exceptions are modelled by explicit oracles:
  the provider response is a parameter, and the functions return an audit
  list of the fetch calls they issued.
-/

/-- A calendar date as year/month/day fields, for the code paths that use
`date.replace` on those fields. -/
structure Ymd where
  year : Int
  month : Int
  day : Int
deriving DecidableEq

/-- Weekday of a proleptic Gregorian ordinal, Monday = 0 .. Sunday = 6,
matching `datetime.date.weekday()` (ordinal 1, January 1 of year 1, is a Monday). -/
def pyWeekday (ordinal : Int) : Int :=
  (ordinal - 1) % 7

/-- The weekly branch of `RentChecker.calculate_expected_rent_date`
(src/backend/utils/rent_checker.py, lines 57-60):
`days_since_due = (reference_date.weekday() - (due_day - 1)) % 7` and
`expected_date = reference_date - timedelta(days=days_since_due)`,
with dates as ordinals. -/
def calculate_expected_rent_date_weekly (reference_date : Int) (due_day : Int) : Int :=
  reference_date - (pyWeekday reference_date - (due_day - 1)) % 7

/-- The monthly branch of `RentChecker.calculate_expected_rent_date`
(src/backend/utils/rent_checker.py, lines 45-55):
`expected_date = reference_date.replace(day=min(due_day, 28))`, then if
`reference_date.day < due_day` roll back one month, mapping a January
reference month to December of the previous year. -/
def calculate_expected_rent_date_monthly (reference_date : Ymd) (due_day : Int) : Ymd :=
  let expected_date : Ymd := { reference_date with day := min due_day 28 }
  if reference_date.day < due_day then
    if expected_date.month = 1 then
      { expected_date with year := expected_date.year - 1, month := 12 }
    else
      { expected_date with month := expected_date.month - 1 }
  else
    expected_date

/-- Lowercasing as `str.lower()` does for the ASCII text the code deals in. -/
def strLower (s : String) : String :=
  ⟨s.data.map Char.toLower⟩

/-- Substring test, the semantics of the Python `needle in haystack` operator
on strings (the empty needle occurs in every haystack). -/
def strContains (haystack needle : String) : Bool :=
  (List.range (haystack.data.length + 1)).any
    (fun i => needle.data.isPrefixOf (haystack.data.drop i))

/-- The fields of a property record that the matching code reads
(src/backend/models/property.py).  `keyword` and `tenant_nickname` are
`none` when the attribute is absent; the code also treats an empty string
as absent (Python truthiness). -/
structure Property where
  rent_amount : ℚ
  keyword : Option String
  tenant_nickname : Option String
deriving DecidableEq

/-- A raw provider transaction dict, with the fields the code reads already
parsed: `date` (ordinal), `amount`, `description` (defaulting to the empty
string, as `txn.get` does), and `akahu_id`, the optional `_id` key. -/
structure RawTxn where
  date : Int
  amount : ℚ
  description : String
  akahu_id : Option String
deriving DecidableEq

/-- The amount comparison both detection paths perform:
`abs(amount - rent_amount) <= tolerance`
(src/backend/utils/akahu_service.py line 199,
src/backend/utils/smart_scheduler.py line 149). -/
def amount_match_check (amount rent_amount tolerance : ℚ) : Bool :=
  |amount - rent_amount| ≤ tolerance

/-- The fixed rent keyword list of `AkahuService.detect_rent_payments`
(src/backend/utils/akahu_service.py line 217). -/
def rent_keywords : List String :=
  ["rent", "rental", "lease", "housing"]

/-- The confidence accumulation of `AkahuService.detect_rent_payments`
(lines 204-221), evaluated on the already-lowercased description of a
transaction whose amount matched: base 0.5, +0.3 for the property keyword,
+0.2 for the tenant nickname, +0.1 once if any fixed rent keyword occurs. -/
def confidence_score (property_obj : Property) (description : String) : ℚ :=
  (1/2)
  + (if property_obj.keyword.getD "" ≠ ""
        ∧ strContains description (strLower (property_obj.keyword.getD "")) = true
     then 3/10 else 0)
  + (if property_obj.tenant_nickname.getD "" ≠ ""
        ∧ strContains description (strLower (property_obj.tenant_nickname.getD "")) = true
     then 1/5 else 0)
  + (if rent_keywords.any (fun k => strContains description k) = true then 1/10 else 0)

/-- One record appended to `detected_payments` by
`AkahuService.detect_rent_payments` (lines 224-230). -/
structure DetectedPayment where
  transaction : RawTxn
  property : Property
  confidence : ℚ
  amount_match : Bool
  keyword_match : Bool
deriving DecidableEq

/-- `AkahuService.detect_rent_payments` (src/backend/utils/akahu_service.py,
lines 186-232): 5 percent amount tolerance, `continue` on amount mismatch,
confidence accumulation, and acceptance at confidence at least 0.6. -/
def detect_rent_payments (transactions : List RawTxn) (property_obj : Property) :
    List DetectedPayment :=
  transactions.filterMap (fun txn =>
    let amount := |txn.amount|
    let description := strLower txn.description
    let tolerance : ℚ := property_obj.rent_amount * (5/100)
    if amount_match_check amount property_obj.rent_amount tolerance then
      let c := confidence_score property_obj description
      if (3/5 : ℚ) ≤ c then
        some { transaction := txn, property := property_obj, confidence := c,
               amount_match := true, keyword_match := decide ((1/2 : ℚ) < c) }
      else none
    else none)

/-- `SmartRentScheduler._detect_rent_payments`
(src/backend/utils/smart_scheduler.py, lines 136-165): 5 percent tolerance,
keyword match defaulting to true when no keyword is configured, tenant
nickname as an alternative keyword. -/
def sched_detect_rent_payments (transactions : List RawTxn) (property_obj : Property) :
    List RawTxn :=
  transactions.filter (fun txn =>
    let amount := |txn.amount|
    let description := strLower txn.description
    let tolerance : ℚ := property_obj.rent_amount * (5/100)
    let aMatch := amount_match_check amount property_obj.rent_amount tolerance
    let kMatch :=
      if property_obj.keyword.getD "" ≠ ""
      then strContains description (strLower (property_obj.keyword.getD ""))
      else true
    let kMatch2 :=
      if property_obj.tenant_nickname.getD "" ≠ ""
      then kMatch || strContains description (strLower (property_obj.tenant_nickname.getD ""))
      else kMatch
    aMatch && kMatch2)

/-- The confidence score exactly as the specification words it (spec section
4.2 and claim C4): 0.5 when the amount matches within tolerance, plus 0.3
when the property keyword occurs case-insensitively in the description, plus
0.2 when the tenant nickname occurs, plus 0.1 once when any fixed rent
keyword occurs.  Defined for every transaction, matched amount or not, so the
acceptance rule the claim states can be compared with
`detect_rent_payments`. -/
def spec_confidence (property_obj : Property) (txn : RawTxn) : ℚ :=
  (if amount_match_check (|txn.amount|) property_obj.rent_amount
        (property_obj.rent_amount * (5/100)) = true
   then 1/2 else 0)
  + (if property_obj.keyword.getD "" ≠ ""
        ∧ strContains (strLower txn.description) (strLower (property_obj.keyword.getD "")) = true
     then 3/10 else 0)
  + (if property_obj.tenant_nickname.getD "" ≠ ""
        ∧ strContains (strLower txn.description) (strLower (property_obj.tenant_nickname.getD "")) = true
     then 1/5 else 0)
  + (if rent_keywords.any (fun k => strContains (strLower txn.description) k) = true
     then 1/10 else 0)

/-- A row of the sqlite `transactions` table as `Transaction.create_transaction`
inserts it (src/backend/models/transaction.py); the columns the claims do not
read (confidence, raw payload, creation time) are omitted.  A missing provider
id is stored as the empty string, exactly as `txn.get` with default produces. -/
structure StoredTxn where
  property_id : Nat
  date : Int
  amount : ℚ
  description : String
  matched : Bool
  akahu_transaction_id : String
deriving DecidableEq

/-- The duplicate probe of `Transaction.create_transaction`:
`SELECT id FROM transactions WHERE akahu_transaction_id = ?`. -/
def dbHasAkahuId (db : List StoredTxn) (akahu_id : String) : Bool :=
  db.any (fun t => t.akahu_transaction_id == akahu_id)

/-- `Transaction.create_transaction` (src/backend/models/transaction.py,
lines 19-76) over the table state: when a truthy (nonempty) provider id is
already present the insert is skipped and `None` returned, otherwise the row
is appended and returned. -/
def create_transaction (db : List StoredTxn) (property_id : Nat) (date : Int)
    (amount : ℚ) (description : String) (matched : Bool)
    (akahu_transaction_id : String) : List StoredTxn × Option StoredTxn :=
  if akahu_transaction_id ≠ "" ∧ dbHasAkahuId db akahu_transaction_id = true then
    (db, none)
  else
    let t : StoredTxn :=
      { property_id, date, amount, description, matched, akahu_transaction_id }
    (db ++ [t], some t)

/-- `AkahuService.store_transactions` (src/backend/utils/akahu_service.py,
lines 94-125): only positive (credit) amounts are imported, the amount is
stored as its absolute value, the provider id defaults to the empty string,
and stored rows are counted. -/
def store_transactions (db : List StoredTxn) (transactions : List RawTxn)
    (property_id : Nat) : List StoredTxn × Nat :=
  match transactions with
  | [] => (db, 0)
  | txn :: rest =>
    if 0 < txn.amount then
      match create_transaction db property_id txn.date (|txn.amount|) txn.description
          false (txn.akahu_id.getD "") with
      | (db2, some _) =>
        let r := store_transactions db2 rest property_id
        (r.1, r.2 + 1)
      | (db2, none) => store_transactions db2 rest property_id
    else
      store_transactions db rest property_id

/-- The success dict of `AkahuService.fetch_rent_due_transactions`
(src/backend/utils/akahu_service.py, lines 167-175). -/
structure SyncResult where
  property_id : Nat
  range_start : Int
  range_end : Int
  transactions_found : Nat
  transactions_stored : Nat
  api_calls_used : Nat
  estimated_cost : ℚ
deriving DecidableEq

/-- `AkahuService.fetch_rent_due_transactions` (src/backend/utils/akahu_service.py,
lines 145-184): builds the window from one day before the due date to two days
after it (start of day, so the half-open 3-day window), issues one
`get_transactions` call, stores the response with `store_transactions`, and
returns the counts with `api_calls_used = 1` and `estimated_cost = 0.10`.
The provider is an oracle from the window to the response items; the middle
component of the result is the audit list of the `get_transactions` calls
issued, and the last component the table state after storing. -/
def fetch_rent_due_transactions (provider : Int → Int → List RawTxn)
    (db : List StoredTxn) (property_id : Nat) (rent_due_date : Int) :
    SyncResult × List (Int × Int) × List StoredTxn :=
  let start_date := rent_due_date - 1
  let end_date := rent_due_date + 2
  let transactions := provider start_date end_date
  let stored := store_transactions db transactions property_id
  (⟨property_id, start_date, end_date, transactions.length, stored.2, 1, 1/10⟩,
   [(start_date, end_date)], stored.1)

/-- The per-property result dict of
`SmartRentScheduler.fetch_transactions_for_property`
(src/backend/utils/smart_scheduler.py, lines 83-134): a success dict with the
counts and the notification flag, or a failure dict with only the error text. -/
inductive FetchResult where
  | ok (property_id transactions_fetched transactions_stored
        rent_payments_detected api_calls_used : Nat) (notification_sent : Bool)
  | err (error : String)
deriving DecidableEq

/-- The `success` key of a per-property result. -/
def FetchResult.success : FetchResult → Bool
  | .ok .. => true
  | .err _ => false

/-- `result.get(api_calls_used, 0)`: the API call count, defaulting to 0 on a
failure dict. -/
def FetchResult.apiCallsUsed : FetchResult → Nat
  | .ok _ _ _ _ n _ => n
  | .err _ => 0

/-- `result.get(notification_sent)`: false on a failure dict. -/
def FetchResult.notificationSent : FetchResult → Bool
  | .ok _ _ _ _ _ b => b
  | .err _ => false

/-- One due property as the scheduler loop sees it: the property id, the
matching fields, whether its user has a stored bank token, and the outcome
oracle of its provider fetch — either the response items, or the exception the
check raises. -/
structure PropertyCheck where
  property_id : Nat
  prop : Property
  has_token : Bool
  outcome : Except String (List RawTxn)

/-- `SmartRentScheduler.fetch_transactions_for_property`
(src/backend/utils/smart_scheduler.py, lines 83-134): a missing token or a
raised exception yields a failure dict and leaves the table unchanged;
otherwise the response is stored, rent payments are detected with the 5
percent matcher, one API call is recorded, and the late-rent notification is
sent exactly when no rent payment was detected. -/
def fetch_transactions_for_property (c : PropertyCheck) (db : List StoredTxn) :
    FetchResult × List StoredTxn :=
  if c.has_token = false then (.err "No Akahu token", db)
  else
    match c.outcome with
    | .error e => (.err e, db)
    | .ok transactions =>
      let stored := store_transactions db transactions c.property_id
      let rent_payments := sched_detect_rent_payments transactions c.prop
      (.ok c.property_id transactions.length stored.2 rent_payments.length 1
        (rent_payments.length == 0), stored.1)

/-- The accumulating results dict of `SmartRentScheduler.run_daily_smart_check`
(src/backend/utils/smart_scheduler.py, lines 198-227). -/
structure RunSummary where
  properties_checked : Nat
  api_calls_used : Nat
  notifications_sent : Nat
  successful_checks : Nat
  failed_checks : Nat
  total_cost : ℚ
  details : List FetchResult
deriving DecidableEq

/-- The outcome of `run_daily_smart_check`: the early four-field dict when no
property is due, or the full summary. -/
inductive RunOutcome where
  | noProperties
  | summary (s : RunSummary)
deriving DecidableEq

/-- The per-property loop of `run_daily_smart_check` (lines 209-221): each
property is checked, its result appended to `details`, and the success,
failure, API-call, and notification tallies updated; the table state threads
through the stores. -/
def runLoop (items : List PropertyCheck) (db : List StoredTxn) (acc : RunSummary) :
    RunSummary × List StoredTxn :=
  match items with
  | [] => (acc, db)
  | c :: rest =>
    let fr := fetch_transactions_for_property c db
    runLoop rest fr.2
      { properties_checked := acc.properties_checked + 1
        api_calls_used := acc.api_calls_used + (if fr.1.success then fr.1.apiCallsUsed else 0)
        notifications_sent :=
          acc.notifications_sent + (if fr.1.success && fr.1.notificationSent then 1 else 0)
        successful_checks := acc.successful_checks + (if fr.1.success then 1 else 0)
        failed_checks := acc.failed_checks + (if fr.1.success then 0 else 1)
        total_cost := acc.total_cost
        details := acc.details ++ [fr.1] }

/-- `SmartRentScheduler.run_daily_smart_check` (src/backend/utils/smart_scheduler.py,
lines 181-227): the early return when nothing is due, otherwise the loop from
the all-zero dict, with `total_cost` set to 0.10 per API call afterwards. -/
def run_daily_smart_check (properties_to_check : List PropertyCheck)
    (db : List StoredTxn) : RunOutcome × List StoredTxn :=
  match properties_to_check with
  | [] => (.noProperties, db)
  | _ :: _ =>
    let r := runLoop properties_to_check db ⟨0, 0, 0, 0, 0, 0, []⟩
    (.summary { r.1 with total_cost := (r.1.api_calls_used : ℚ) * (1/10) }, r.2)

/-- The per-property results of the loop in processing order, with the table
state threading through. -/
def detailsOf : List PropertyCheck → List StoredTxn → List FetchResult
  | [], _ => []
  | c :: rest, db =>
    let fr := fetch_transactions_for_property c db
    fr.1 :: detailsOf rest fr.2

/-- The table state after the loop. -/
def dbAfterChecks : List PropertyCheck → List StoredTxn → List StoredTxn
  | [], db => db
  | c :: rest, db =>
    let fr := fetch_transactions_for_property c db
    dbAfterChecks rest fr.2

/-- API calls a result contributes to the tally (only counted on success). -/
def apiContrib (r : FetchResult) : Nat :=
  if r.success then r.apiCallsUsed else 0

/-- Notifications a result contributes to the tally. -/
def notifContrib (r : FetchResult) : Nat :=
  if r.success && r.notificationSent then 1 else 0

/-- A parameter of a Python method signature: its name and whether it has a
default value. -/
structure PyParam where
  name : String
  has_default : Bool
deriving DecidableEq

/-- Signature of `AkahuService.get_transactions(self, access_token,
start_date=None, end_date=None, account_id=None)`
(src/backend/utils/akahu_service.py line 65). -/
def akahu_get_transactions_params : List PyParam :=
  [⟨"access_token", false⟩, ⟨"start_date", true⟩, ⟨"end_date", true⟩, ⟨"account_id", true⟩]

/-- Signature of `MockAkahuService.get_transactions(self, access_token,
account_id, days_back=2)` (src/backend/utils/akahu_service.py line 269). -/
def mock_get_transactions_params : List PyParam :=
  [⟨"access_token", false⟩, ⟨"account_id", false⟩, ⟨"days_back", true⟩]

/-- Signature of `AkahuService.get_accounts(self, access_token)` (line 47). -/
def akahu_get_accounts_params : List PyParam :=
  [⟨"access_token", false⟩]

/-- Signature of `MockAkahuService.get_accounts(self, access_token)` (line 252). -/
def mock_get_accounts_params : List PyParam :=
  [⟨"access_token", false⟩]

/-- Signature of `AkahuService.get_authorization_url(self, user_id,
redirect_uri)` (line 12). -/
def akahu_get_authorization_url_params : List PyParam :=
  [⟨"user_id", false⟩, ⟨"redirect_uri", false⟩]

/-- Signature of `MockAkahuService.get_authorization_url(self, user_id,
redirect_uri)` (line 238). -/
def mock_get_authorization_url_params : List PyParam :=
  [⟨"user_id", false⟩, ⟨"redirect_uri", false⟩]

/-- Signature of `AkahuService.exchange_code_for_token(self, code,
redirect_uri)` (line 25). -/
def akahu_exchange_code_for_token_params : List PyParam :=
  [⟨"code", false⟩, ⟨"redirect_uri", false⟩]

/-- Signature of `MockAkahuService.exchange_code_for_token(self, code,
redirect_uri)` (line 243). -/
def mock_exchange_code_for_token_params : List PyParam :=
  [⟨"code", false⟩, ⟨"redirect_uri", false⟩]

/-- Whether a Python call with `npos` positional arguments (after `self`) and
the given keyword names binds against a parameter list with no varargs: every
keyword must name a parameter not taken by a positional, and every parameter
left after the positionals must have a default or a keyword. -/
def bindsCall (params : List PyParam) (npos : Nat) (kwargs : List String) : Bool :=
  decide (npos ≤ params.length)
  && kwargs.all (fun k => ((params.drop npos).map (fun p => p.name)).contains k)
  && (params.drop npos).all (fun p => p.has_default || kwargs.contains p.name)

/-- `MockAkahuService.get_transactions` (src/backend/utils/akahu_service.py,
lines 269-292): three canned transactions dated back from the current clock,
with amounts and descriptions drawn by `random.choice`; the clock and the two
random draws are oracles.  The dicts carry an `id` key but no `_id` key, so
the external id the store reads is absent. -/
def mock_get_transactions (now : Int) (amount_choice : Nat → Nat)
    (description_choice : Nat → Nat) : List RawTxn :=
  (List.range 3).map (fun (i : Nat) =>
    { date := now - (i : Int)
      amount := ([450, 520, 380] : List ℚ).getD (amount_choice i % 3) 0
      description := ["Rent payment - Smith", "Weekly rent", "Property rent - Jones",
        "Rental payment"].getD (description_choice i % 4) ""
      akahu_id := none })

/-- C2: for every weekly property (due-day 1..7, 1 = Monday) and every
reference date, the expected rent date has the weekday the due-day denotes
(Python index `due_day - 1`), is less than or equal to the reference date,
and is at most 6 days before it. -/
theorem weekly_expected_date_weekday_and_window
    (reference_date due_day : Int) (h1 : 1 ≤ due_day) (h7 : due_day ≤ 7) :
    pyWeekday (calculate_expected_rent_date_weekly reference_date due_day) = due_day - 1
    ∧ calculate_expected_rent_date_weekly reference_date due_day ≤ reference_date
    ∧ reference_date - calculate_expected_rent_date_weekly reference_date due_day ≤ 6 := by
  unfold calculate_expected_rent_date_weekly pyWeekday
  omega

/-- Witness for `weekly_expected_date_weekday_and_window` at ordinal 738885
(a Friday, weekday 4) and due-day 3 (Wednesday). -/
theorem weekly_expected_date_weekday_and_window_witness :
    pyWeekday (calculate_expected_rent_date_weekly 738885 3) = 2
    ∧ calculate_expected_rent_date_weekly 738885 3 ≤ 738885
    ∧ 738885 - calculate_expected_rent_date_weekly 738885 3 ≤ 6 := by
  have h := weekly_expected_date_weekday_and_window 738885 3 (by decide) (by decide)
  exact ⟨by rw [h.1]; decide, h.2.1, h.2.2⟩

/-- C3: the monthly branch clamps the day to `min due_day 28` in the reference
month, and rolls back one month exactly when the reference day-of-month is
strictly below the due-day, mapping a January reference to December of the
previous year. -/
theorem monthly_expected_date_clamp_and_rollback (reference_date : Ymd) (due_day : Int)
    (hd : 1 ≤ due_day) :
    (calculate_expected_rent_date_monthly reference_date due_day).day = min due_day 28
    ∧ (reference_date.day < due_day → reference_date.month = 1 →
        calculate_expected_rent_date_monthly reference_date due_day =
          ⟨reference_date.year - 1, 12, min due_day 28⟩)
    ∧ (reference_date.day < due_day → reference_date.month ≠ 1 →
        calculate_expected_rent_date_monthly reference_date due_day =
          ⟨reference_date.year, reference_date.month - 1, min due_day 28⟩)
    ∧ (¬ reference_date.day < due_day →
        calculate_expected_rent_date_monthly reference_date due_day =
          ⟨reference_date.year, reference_date.month, min due_day 28⟩) := by
  unfold calculate_expected_rent_date_monthly
  refine ⟨?_, ?_, ?_, ?_⟩ <;> intros <;> split_ifs <;> simp_all <;> split_ifs <;> simp_all

/-- Witness for `monthly_expected_date_clamp_and_rollback`: due-day 31 against
the 30-day reference month November 2023 (reference day 30) clamps to day 28
and rolls back to October, so the result has day-of-month 28 as the claim
states. -/
theorem monthly_expected_date_clamp_and_rollback_witness :
    calculate_expected_rent_date_monthly ⟨2023, 11, 30⟩ 31 = ⟨2023, 10, 28⟩
    ∧ (calculate_expected_rent_date_monthly ⟨2023, 11, 30⟩ 31).day = 28 := by
  have h := monthly_expected_date_clamp_and_rollback ⟨2023, 11, 30⟩ 31 (by decide)
  have h2 := h.2.2.1 (by decide) (by decide)
  exact ⟨by rw [h2]; decide, by rw [h2]; decide⟩

/-- When the amount matches, the spec formula and the code accumulation agree. -/
lemma spec_confidence_eq_of_amount_match (property_obj : Property) (txn : RawTxn)
    (h : amount_match_check (|txn.amount|) property_obj.rent_amount
          (property_obj.rent_amount * (5/100)) = true) :
    spec_confidence property_obj txn = confidence_score property_obj (strLower txn.description) := by
  unfold spec_confidence confidence_score
  rw [if_pos h]

/-- C4 counterexample: a transaction whose amount does not match but whose
keyword, nickname, and rent-word terms sum to exactly 0.6.  The claimed rule
(accept iff the confidence sum is at least 0.6) would accept it, yet
`detect_rent_payments` skips it because of the amount mismatch. -/
theorem detect_accept_rule_counterexample :
    (3/5 : ℚ) ≤ spec_confidence ⟨450, some "abc", some "bob"⟩ ⟨0, 100, "abc bob rent", none⟩
    ∧ detect_rent_payments [⟨0, 100, "abc bob rent", none⟩] ⟨450, some "abc", some "bob"⟩ = [] := by
  have k1 : strContains (strLower "abc bob rent") (strLower "abc") = true := by decide
  have k2 : strContains (strLower "abc bob rent") (strLower "bob") = true := by decide
  have k3 : strContains (strLower "abc bob rent") "rent" = true := by decide
  have n1 : ("abc" : String) ≠ "" := by decide
  have n2 : ("bob" : String) ≠ "" := by decide
  have e1 : |(100 : ℚ)| = 100 := abs_of_nonneg (by norm_num)
  have e2 : |(100 : ℚ) - 450| = 350 := by
    rw [abs_of_nonpos (by norm_num)]; norm_num
  constructor
  · norm_num [spec_confidence, amount_match_check, rent_keywords, k1, k2, k3, n1, n2, e1, e2]
  · norm_num [detect_rent_payments, amount_match_check, confidence_score, rent_keywords,
      List.filterMap_cons, k1, k2, k3, n1, n2, e1, e2]

/-- C4 amended: a transaction is accepted by `detect_rent_payments` iff its
amount matches within the 5 percent tolerance AND the confidence sum is at
least 0.6; the accepted record carries that confidence, `amount_match = true`,
and `keyword_match` iff the confidence exceeds 0.5. -/
theorem detect_accept_iff_amount_and_confidence
    (transactions : List RawTxn) (property_obj : Property) :
    detect_rent_payments transactions property_obj =
      (transactions.filter (fun txn =>
          amount_match_check (|txn.amount|) property_obj.rent_amount
            (property_obj.rent_amount * (5/100))
          && decide ((3/5 : ℚ) ≤ spec_confidence property_obj txn))).map
        (fun txn =>
          { transaction := txn, property := property_obj,
            confidence := spec_confidence property_obj txn,
            amount_match := true,
            keyword_match := decide ((1/2 : ℚ) < spec_confidence property_obj txn) }) := by
  induction transactions with
  | nil => rfl
  | cons t rest ih =>
    simp only [detect_rent_payments] at ih ⊢
    rw [List.filterMap_cons, List.filter_cons]
    by_cases hA : amount_match_check (|t.amount|) property_obj.rent_amount
        (property_obj.rent_amount * (5/100)) = true
    · have hc : confidence_score property_obj (strLower t.description) =
          spec_confidence property_obj t :=
        (spec_confidence_eq_of_amount_match property_obj t hA).symm
      by_cases hC : (3/5 : ℚ) ≤ spec_confidence property_obj t
      · simp [hA, hc, hC]
        simpa using ih
      · simp [hA, hc, hC]
        simpa using ih
    · rw [Bool.not_eq_true] at hA
      simp [hA]
      simpa using ih

/-- C5: the amount comparison of both detection paths is inclusive at the
boundary, and concretely, with rent 450 and the 5 percent tolerance, an
amount of 427.50 is detected by both paths while 427.49 is not. -/
theorem amount_match_inclusive_boundary :
    (∀ amount rent_amount tolerance : ℚ,
        amount_match_check amount rent_amount tolerance = true ↔
          |amount - rent_amount| ≤ tolerance)
    ∧ sched_detect_rent_payments [⟨0, 855/2, "x", none⟩] ⟨450, none, none⟩ =
        [⟨0, 855/2, "x", none⟩]
    ∧ sched_detect_rent_payments [⟨0, 42749/100, "x", none⟩] ⟨450, none, none⟩ = []
    ∧ detect_rent_payments [⟨0, 855/2, "rent", none⟩] ⟨450, none, none⟩ =
        [⟨⟨0, 855/2, "rent", none⟩, ⟨450, none, none⟩, 3/5, true, true⟩]
    ∧ detect_rent_payments [⟨0, 42749/100, "rent", none⟩] ⟨450, none, none⟩ = [] := by
  have e0 : |(855/2 : ℚ)| = 855/2 := abs_of_nonneg (by norm_num)
  have e1 : |(45/2 : ℚ)| = 45/2 := abs_of_nonneg (by norm_num)
  have e2 : |(42749/100 : ℚ)| = 42749/100 := abs_of_nonneg (by norm_num)
  have e3 : |(2251/100 : ℚ)| = 2251/100 := abs_of_nonneg (by norm_num)
  have k3 : strContains (strLower "rent") "rent" = true := by decide
  refine ⟨fun a r t => by simp [amount_match_check], ?_, ?_, ?_, ?_⟩
  · norm_num [sched_detect_rent_payments, amount_match_check, List.filter_cons, e0, e1]
  · norm_num [sched_detect_rent_payments, amount_match_check, List.filter_cons, e2, e3]
  · norm_num [detect_rent_payments, amount_match_check, confidence_score, rent_keywords,
      List.filterMap_cons, e0, e1, k3]
  · norm_num [detect_rent_payments, amount_match_check, confidence_score, rent_keywords,
      List.filterMap_cons, e2, e3, k3]

/-- C9 counterexample: with an amount match, the property keyword, the tenant
nickname, and a rent word all present, the attached confidence is 1.1,
strictly above 1, refuting the claimed range of 0 to 1. -/
theorem detect_confidence_exceeds_one :
    (detect_rent_payments [⟨0, 450, "RENT123 bob payment", none⟩]
        ⟨450, some "RENT123", some "bob"⟩).map (fun e => e.confidence) = [11/10]
    ∧ ¬ ((11/10 : ℚ) ≤ 1) := by
  have k1 : strContains (strLower "RENT123 bob payment") (strLower "RENT123") = true := by decide
  have k2 : strContains (strLower "RENT123 bob payment") (strLower "bob") = true := by decide
  have k3 : strContains (strLower "RENT123 bob payment") "rent" = true := by decide
  have n1 : ("RENT123" : String) ≠ "" := by decide
  have n2 : ("bob" : String) ≠ "" := by decide
  constructor
  · norm_num [detect_rent_payments, amount_match_check, confidence_score, rent_keywords,
      List.filterMap_cons, k1, k2, k3, n1, n2]
  · norm_num

/-- The code accumulation is bounded by 0.5 below and by 1.1 above. -/
lemma confidence_score_bounds (property_obj : Property) (description : String) :
    1/2 ≤ confidence_score property_obj description
    ∧ confidence_score property_obj description ≤ 11/10 := by
  unfold confidence_score
  split_ifs <;> norm_num

/-- C9 amended: the confidence attached to every payment detected by
`detect_rent_payments` lies between 0 and 1.1 inclusive. -/
theorem detect_confidence_in_range (transactions : List RawTxn) (property_obj : Property)
    (entry : DetectedPayment)
    (h : entry ∈ detect_rent_payments transactions property_obj) :
    0 ≤ entry.confidence ∧ entry.confidence ≤ 11/10 := by
  rcases List.mem_filterMap.mp h with ⟨t, ht, hf⟩
  simp only at hf
  split_ifs at hf
  rcases Option.some_inj.mp hf with rfl
  have hb := confidence_score_bounds property_obj (strLower t.description)
  exact ⟨le_trans (by norm_num) hb.1, hb.2⟩

/-- Witness for `detect_confidence_in_range` on a detected payment of a
concrete run. -/
theorem detect_confidence_in_range_witness :
    0 ≤ (⟨⟨0, 450, "rent", none⟩, ⟨450, none, none⟩, 3/5, true, true⟩ : DetectedPayment).confidence
    ∧ (⟨⟨0, 450, "rent", none⟩, ⟨450, none, none⟩, 3/5, true, true⟩ : DetectedPayment).confidence
        ≤ 11/10 := by
  have hEval : detect_rent_payments [⟨0, 450, "rent", none⟩] ⟨450, none, none⟩ =
      [⟨⟨0, 450, "rent", none⟩, ⟨450, none, none⟩, 3/5, true, true⟩] := by
    have k3 : strContains (strLower "rent") "rent" = true := by decide
    norm_num [detect_rent_payments, amount_match_check, confidence_score, rent_keywords,
      List.filterMap_cons, k3]
  exact detect_confidence_in_range [⟨0, 450, "rent", none⟩] ⟨450, none, none⟩ _
    (by rw [hEval]; exact List.mem_singleton.mpr rfl)

/-- Inserting a row never removes a provider id from the table. -/
lemma create_transaction_keeps_id (db : List StoredTxn) (property_id : Nat) (date : Int)
    (amount : ℚ) (description : String) (matched : Bool) (akahu_transaction_id s : String)
    (h : dbHasAkahuId db s = true) :
    dbHasAkahuId
      (create_transaction db property_id date amount description matched
        akahu_transaction_id).1 s = true := by
  unfold create_transaction
  split_ifs with hdup
  · exact h
  · simp only [dbHasAkahuId, List.any_append] at h ⊢
    simp [h]

/-- After `create_transaction`, the requested provider id is present. -/
lemma create_transaction_adds_id (db : List StoredTxn) (property_id : Nat) (date : Int)
    (amount : ℚ) (description : String) (matched : Bool) (akahu_transaction_id : String) :
    dbHasAkahuId
      (create_transaction db property_id date amount description matched
        akahu_transaction_id).1 akahu_transaction_id = true := by
  unfold create_transaction
  split_ifs with hdup
  · exact hdup.2
  · simp [dbHasAkahuId, List.any_append]

/-- `store_transactions` never removes a provider id from the table. -/
lemma store_transactions_keeps_id (transactions : List RawTxn) (db : List StoredTxn)
    (property_id : Nat) (s : String) (h : dbHasAkahuId db s = true) :
    dbHasAkahuId (store_transactions db transactions property_id).1 s = true := by
  induction transactions generalizing db with
  | nil => simpa [store_transactions] using h
  | cons hd rest ih =>
    simp only [store_transactions]
    by_cases hpos : 0 < hd.amount
    · rw [if_pos hpos]
      rcases hc : create_transaction db property_id hd.date |hd.amount| hd.description false
          (hd.akahu_id.getD "") with ⟨db2, opt⟩
      have hdb2 : dbHasAkahuId db2 s = true := by
        have hk := create_transaction_keeps_id db property_id hd.date |hd.amount|
          hd.description false (hd.akahu_id.getD "") s h
        rwa [hc] at hk
      cases opt with
      | some st => simpa using ih db2 hdb2
      | none => simpa using ih db2 hdb2
    · rw [if_neg hpos]
      exact ih db h

/-- After `store_transactions`, every positive-amount transaction of the input
has its (defaulted) provider id in the table. -/
lemma store_transactions_has_ids (transactions : List RawTxn) (db : List StoredTxn)
    (property_id : Nat) :
    ∀ t ∈ transactions, 0 < t.amount →
      dbHasAkahuId (store_transactions db transactions property_id).1
        (t.akahu_id.getD "") = true := by
  induction transactions generalizing db with
  | nil => intro t ht; exact absurd ht (List.not_mem_nil t)
  | cons hd rest ih =>
    intro t ht hpos
    rcases List.mem_cons.mp ht with rfl | hmem
    · simp only [store_transactions]
      rw [if_pos hpos]
      rcases hc : create_transaction db property_id t.date |t.amount| t.description false
          (t.akahu_id.getD "") with ⟨db2, opt⟩
      have hdb2 : dbHasAkahuId db2 (t.akahu_id.getD "") = true := by
        have hk := create_transaction_adds_id db property_id t.date |t.amount|
          t.description false (t.akahu_id.getD "")
        rwa [hc] at hk
      cases opt with
      | some st => simpa using store_transactions_keeps_id rest db2 property_id _ hdb2
      | none => simpa using store_transactions_keeps_id rest db2 property_id _ hdb2
    · simp only [store_transactions]
      by_cases hpos2 : 0 < hd.amount
      · rw [if_pos hpos2]
        rcases hc : create_transaction db property_id hd.date |hd.amount| hd.description false
            (hd.akahu_id.getD "") with ⟨db2, opt⟩
        cases opt with
        | some st => simpa using ih db2 t hmem hpos
        | none => simpa using ih db2 t hmem hpos
      · rw [if_neg hpos2]
        exact ih db t hmem hpos

/-- When every positive-amount transaction of the input already has its
nonempty provider id in the table, `store_transactions` stores nothing and
leaves the table unchanged. -/
lemma store_transactions_idempotent (transactions : List RawTxn) (db : List StoredTxn)
    (property_id : Nat)
    (h : ∀ t ∈ transactions, 0 < t.amount →
      t.akahu_id.getD "" ≠ "" ∧ dbHasAkahuId db (t.akahu_id.getD "") = true) :
    store_transactions db transactions property_id = (db, 0) := by
  induction transactions with
  | nil => simp [store_transactions]
  | cons hd rest ih =>
    simp only [store_transactions]
    by_cases hpos : 0 < hd.amount
    · rw [if_pos hpos]
      obtain ⟨hne, hhas⟩ := h hd (List.mem_cons_self hd rest) hpos
      have hcreate : create_transaction db property_id hd.date |hd.amount| hd.description false
          (hd.akahu_id.getD "") = (db, none) := by
        unfold create_transaction
        rw [if_pos ⟨hne, hhas⟩]
      rw [hcreate]
      exact ih (fun t ht hp => h t (List.mem_cons_of_mem hd ht) hp)
    · rw [if_neg hpos]
      exact ih (fun t ht hp => h t (List.mem_cons_of_mem hd ht) hp)

/-- C1 counterexample: a provider response whose (positive) transaction has no
`_id` key is stored again by the second identical run, because the stored id
defaults to the empty string and `create_transaction` only deduplicates truthy
ids: the second run reports `transactions_stored = 1`, not 0, and the table
ends up with two copies. -/
theorem fetch_rerun_counterexample :
    (fetch_rent_due_transactions (fun _ _ => [⟨10, 450, "rent", none⟩])
        ((fetch_rent_due_transactions (fun _ _ => [⟨10, 450, "rent", none⟩]) [] 1 11).2.2)
        1 11).1.transactions_stored = 1
    ∧ ((fetch_rent_due_transactions (fun _ _ => [⟨10, 450, "rent", none⟩])
        ((fetch_rent_due_transactions (fun _ _ => [⟨10, 450, "rent", none⟩]) [] 1 11).2.2)
        1 11).2.2).length = 2 := by
  have e0 : |(450 : ℚ)| = 450 := abs_of_nonneg (by norm_num)
  constructor <;>
    norm_num [fetch_rent_due_transactions, store_transactions, create_transaction,
      dbHasAkahuId, e0]

/-- C1 amended: re-running `fetch_rent_due_transactions` with the same provider
response stores nothing the second time and leaves the transactions table
unchanged, provided every positive-amount transaction of the response carries
a nonempty external id (transactions without one are not deduplicated and
would be re-stored). -/
theorem fetch_rerun_stores_zero (provider : Int → Int → List RawTxn)
    (db : List StoredTxn) (property_id : Nat) (rent_due_date : Int)
    (h : ∀ t ∈ provider (rent_due_date - 1) (rent_due_date + 2),
      0 < t.amount → t.akahu_id.getD "" ≠ "") :
    (fetch_rent_due_transactions provider
        ((fetch_rent_due_transactions provider db property_id rent_due_date).2.2)
        property_id rent_due_date).1.transactions_stored = 0
    ∧ (fetch_rent_due_transactions provider
        ((fetch_rent_due_transactions provider db property_id rent_due_date).2.2)
        property_id rent_due_date).2.2
      = (fetch_rent_due_transactions provider db property_id rent_due_date).2.2 := by
  have hall : ∀ t ∈ provider (rent_due_date - 1) (rent_due_date + 2), 0 < t.amount →
      t.akahu_id.getD "" ≠ ""
      ∧ dbHasAkahuId
          ((store_transactions db (provider (rent_due_date - 1) (rent_due_date + 2))
            property_id).1) (t.akahu_id.getD "") = true :=
    fun t ht hp =>
      ⟨h t ht hp,
       store_transactions_has_ids (provider (rent_due_date - 1) (rent_due_date + 2)) db
         property_id t ht hp⟩
  have h0 := store_transactions_idempotent
    (provider (rent_due_date - 1) (rent_due_date + 2))
    ((store_transactions db (provider (rent_due_date - 1) (rent_due_date + 2))
      property_id).1) property_id hall
  constructor <;> simp [fetch_rent_due_transactions, h0]

/-- Witness for `fetch_rerun_stores_zero`: a canned provider response with one
credit transaction carrying external id tx1. -/
theorem fetch_rerun_stores_zero_witness :
    (fetch_rent_due_transactions (fun _ _ => [⟨10, 450, "rent", some "tx1"⟩])
        ((fetch_rent_due_transactions (fun _ _ => [⟨10, 450, "rent", some "tx1"⟩]) [] 1 11).2.2)
        1 11).1.transactions_stored = 0
    ∧ (fetch_rent_due_transactions (fun _ _ => [⟨10, 450, "rent", some "tx1"⟩])
        ((fetch_rent_due_transactions (fun _ _ => [⟨10, 450, "rent", some "tx1"⟩]) [] 1 11).2.2)
        1 11).2.2
      = (fetch_rent_due_transactions (fun _ _ => [⟨10, 450, "rent", some "tx1"⟩]) [] 1 11).2.2 := by
  refine fetch_rerun_stores_zero (fun _ _ => [⟨10, 450, "rent", some "tx1"⟩]) [] 1 11 ?_
  intro t ht hp
  rcases List.mem_singleton.mp ht with rfl
  decide

/-- C6: for every provider response, table state, property, and due date,
`fetch_rent_due_transactions` issues exactly one fetch call, over exactly the
window from one day before to two days after the due date, stores the response
through the deduplicating `store_transactions`, and reports one API call at an
estimated cost of 0.10. -/
theorem fetch_window_one_call_and_cost (provider : Int → Int → List RawTxn)
    (db : List StoredTxn) (property_id : Nat) (rent_due_date : Int) :
    (fetch_rent_due_transactions provider db property_id rent_due_date).2.1 =
        [(rent_due_date - 1, rent_due_date + 2)]
    ∧ (fetch_rent_due_transactions provider db property_id rent_due_date).1.range_start =
        rent_due_date - 1
    ∧ (fetch_rent_due_transactions provider db property_id rent_due_date).1.range_end =
        rent_due_date + 2
    ∧ (fetch_rent_due_transactions provider db property_id rent_due_date).1.api_calls_used = 1
    ∧ (fetch_rent_due_transactions provider db property_id rent_due_date).1.estimated_cost = 1/10
    ∧ (fetch_rent_due_transactions provider db property_id rent_due_date).1.transactions_found =
        (provider (rent_due_date - 1) (rent_due_date + 2)).length
    ∧ (fetch_rent_due_transactions provider db property_id rent_due_date).1.transactions_stored =
        (store_transactions db (provider (rent_due_date - 1) (rent_due_date + 2))
          property_id).2
    ∧ (fetch_rent_due_transactions provider db property_id rent_due_date).2.2 =
        (store_transactions db (provider (rent_due_date - 1) (rent_due_date + 2))
          property_id).1 :=
  ⟨rfl, rfl, rfl, rfl, rfl, rfl, rfl, rfl⟩

/-- Closed form of the scheduler loop: the final summary extends the
accumulator by the tallies over the per-property results. -/
lemma runLoop_eq (items : List PropertyCheck) (db : List StoredTxn) (acc : RunSummary) :
    runLoop items db acc =
      ({ properties_checked := acc.properties_checked + (detailsOf items db).length
         api_calls_used := acc.api_calls_used + ((detailsOf items db).map apiContrib).sum
         notifications_sent :=
           acc.notifications_sent + ((detailsOf items db).map notifContrib).sum
         successful_checks :=
           acc.successful_checks + ((detailsOf items db).filter (fun r => r.success)).length
         failed_checks :=
           acc.failed_checks + ((detailsOf items db).filter (fun r => !r.success)).length
         total_cost := acc.total_cost
         details := acc.details ++ detailsOf items db },
       dbAfterChecks items db) := by
  induction items generalizing db acc with
  | nil => simp [runLoop, detailsOf, dbAfterChecks]
  | cons c rest ih =>
    simp only [runLoop, detailsOf, dbAfterChecks]
    rw [ih]
    refine Prod.ext ?_ rfl
    simp only [RunSummary.mk.injEq]
    refine ⟨?_, ?_, ?_, ?_, ?_, trivial, ?_⟩
    · simp only [List.length_cons]; omega
    · simp only [List.map_cons, List.sum_cons, apiContrib]; omega
    · simp only [List.map_cons, List.sum_cons, notifContrib]; omega
    · simp only [List.filter_cons]
      split_ifs <;> simp_all <;> omega
    · simp only [List.filter_cons]
      split_ifs <;> simp_all <;> omega
    · simp [List.append_assoc]

/-- The loop produces one result per due property. -/
lemma detailsOf_length (items : List PropertyCheck) (db : List StoredTxn) :
    (detailsOf items db).length = items.length := by
  induction items generalizing db with
  | nil => rfl
  | cons c rest ih => simp [detailsOf, ih]

/-- Every result is counted either as a success or as a failure. -/
lemma length_filter_success_split (l : List FetchResult) :
    (l.filter (fun r => r.success)).length + (l.filter (fun r => !r.success)).length
      = l.length := by
  induction l with
  | nil => rfl
  | cons h t ih =>
    simp only [List.filter_cons]
    split_ifs <;> simp_all <;> omega

/-- A notification is only tallied for a successful check, so the notification
total is bounded by the success count. -/
lemma notif_sum_le_success (l : List FetchResult) :
    (l.map notifContrib).sum ≤ (l.filter (fun r => r.success)).length := by
  induction l with
  | nil => simp
  | cons h t ih =>
    simp only [List.map_cons, List.sum_cons, List.filter_cons, notifContrib]
    split_ifs <;> simp_all <;> omega

/-- A property whose check raises (token present, provider outcome an error)
contributes exactly the failure record at its position, whatever the table
state. -/
lemma detailsOf_getD_err (items : List PropertyCheck) (db : List StoredTxn) (k : Nat)
    (hk : k < items.length) (e : String)
    (htok : (items.get ⟨k, hk⟩).has_token = true)
    (herr : (items.get ⟨k, hk⟩).outcome = .error e) :
    (detailsOf items db).getD k (.ok 0 0 0 0 0 false) = .err e := by
  induction items generalizing db k with
  | nil => exact absurd hk (by simp)
  | cons c rest ih =>
    cases k with
    | zero =>
      simp only [List.get] at htok herr
      simp only [detailsOf, List.getD_cons_zero]
      simp [fetch_transactions_for_property, htok, herr]
    | succ k2 =>
      simp only [detailsOf, List.getD_cons_succ]
      exact ih _ k2 (Nat.lt_of_succ_lt_succ hk) htok herr

/-- C7: when the check of the k-th due property raises an exception, the run
still returns a full summary: the failure is recorded as that property's
result with success false, it is counted in `failed_checks`, and every one of
the other due properties still has its own result entry (the details list
covers all properties in order). -/
theorem run_daily_check_isolates_failures (props : List PropertyCheck)
    (db : List StoredTxn) (k : Nat) (e : String) (hk : k < props.length)
    (htok : (props.get ⟨k, hk⟩).has_token = true)
    (herr : (props.get ⟨k, hk⟩).outcome = .error e) :
    ∃ s, (run_daily_smart_check props db).1 = .summary s
      ∧ s.details.length = props.length
      ∧ s.properties_checked = props.length
      ∧ s.details.getD k (.ok 0 0 0 0 0 false) = .err e
      ∧ s.failed_checks = (s.details.filter (fun r => !r.success)).length
      ∧ 1 ≤ s.failed_checks := by
  cases props with
  | nil => exact absurd hk (by simp)
  | cons c rest =>
    simp only [run_daily_smart_check, runLoop_eq]
    refine ⟨_, rfl, ?_, ?_, ?_, ?_, ?_⟩
    · simpa using detailsOf_length (c :: rest) db
    · simpa using detailsOf_length (c :: rest) db
    · simpa using detailsOf_getD_err (c :: rest) db k hk e htok herr
    · simp
    · have hkL : k < (detailsOf (c :: rest) db).length := by
        rw [detailsOf_length]; exact hk
      have hget : (detailsOf (c :: rest) db).get ⟨k, hkL⟩ = .err e := by
        rw [← List.getD_eq_get (detailsOf (c :: rest) db) (.ok 0 0 0 0 0 false) hkL]
        exact detailsOf_getD_err (c :: rest) db k hk e htok herr
      have hmem : (.err e : FetchResult) ∈ detailsOf (c :: rest) db := by
        rw [← hget]; exact List.get_mem _ _ _
      have hmf : (.err e : FetchResult) ∈
          (detailsOf (c :: rest) db).filter (fun r => !r.success) :=
        List.mem_filter.mpr ⟨hmem, rfl⟩
      have hpos := List.length_pos.mpr (List.ne_nil_of_mem hmf)
      simpa using hpos

/-- Witness for `run_daily_check_isolates_failures`: a single due property
whose provider fetch raises. -/
theorem run_daily_check_isolates_failures_witness :
    ∃ s, (run_daily_smart_check [⟨1, ⟨450, none, none⟩, true, .error "boom"⟩] []).1 =
        .summary s
      ∧ s.details.length = 1
      ∧ s.properties_checked = 1
      ∧ s.details.getD 0 (.ok 0 0 0 0 0 false) = .err "boom"
      ∧ s.failed_checks = (s.details.filter (fun r => !r.success)).length
      ∧ 1 ≤ s.failed_checks :=
  run_daily_check_isolates_failures [⟨1, ⟨450, none, none⟩, true, .error "boom"⟩] []
    0 "boom" (by decide) rfl rfl

/-- C10: a run over a nonempty due list returns a summary in which the checked
count is the sum of successes and failures, the details list has one entry per
due property in processing order, notifications never exceed successes, and
the total cost is 0.10 per API call. -/
theorem run_daily_check_summary_invariants (props : List PropertyCheck)
    (db : List StoredTxn) (h : props ≠ []) :
    ∃ s, (run_daily_smart_check props db).1 = .summary s
      ∧ s.properties_checked = s.successful_checks + s.failed_checks
      ∧ s.details.length = s.properties_checked
      ∧ s.details = detailsOf props db
      ∧ s.notifications_sent ≤ s.successful_checks
      ∧ s.total_cost = (s.api_calls_used : ℚ) * (1/10) := by
  cases props with
  | nil => exact absurd rfl h
  | cons c rest =>
    simp only [run_daily_smart_check, runLoop_eq]
    refine ⟨_, rfl, ?_, ?_, ?_, ?_, ?_⟩
    · have := length_filter_success_split (detailsOf (c :: rest) db)
      simpa using this.symm
    · simp
    · simp
    · simpa using notif_sum_le_success (detailsOf (c :: rest) db)
    · simp

/-- Witness for `run_daily_check_summary_invariants`: one due property with an
empty provider response. -/
theorem run_daily_check_summary_invariants_witness :
    ∃ s, (run_daily_smart_check [⟨1, ⟨450, none, none⟩, true, .ok []⟩] []).1 = .summary s
      ∧ s.properties_checked = s.successful_checks + s.failed_checks
      ∧ s.details.length = s.properties_checked
      ∧ s.details = detailsOf [⟨1, ⟨450, none, none⟩, true, .ok []⟩] []
      ∧ s.notifications_sent ≤ s.successful_checks
      ∧ s.total_cost = (s.api_calls_used : ℚ) * (1/10) :=
  run_daily_check_summary_invariants [⟨1, ⟨450, none, none⟩, true, .ok []⟩] []
    (List.cons_ne_nil _ _)

/-- C8: the mock matches the real signatures for `get_authorization_url`,
`exchange_code_for_token`, and `get_accounts`, but its `get_transactions`
signature differs from the real one, so the call the scheduler makes on the
real backend (one positional token plus the keywords start_date and end_date,
src/backend/utils/smart_scheduler.py lines 102-106) binds on the real service
and fails on the mock; and the mock transaction data depends on the random
draws, so it is not deterministic canned data. -/
theorem mock_service_interface_divergence :
    mock_get_authorization_url_params = akahu_get_authorization_url_params
    ∧ mock_exchange_code_for_token_params = akahu_exchange_code_for_token_params
    ∧ mock_get_accounts_params = akahu_get_accounts_params
    ∧ mock_get_transactions_params ≠ akahu_get_transactions_params
    ∧ bindsCall akahu_get_transactions_params 1 ["start_date", "end_date"] = true
    ∧ bindsCall mock_get_transactions_params 1 ["start_date", "end_date"] = false
    ∧ mock_get_transactions 0 (fun _ => 0) (fun _ => 0)
        ≠ mock_get_transactions 0 (fun _ => 1) (fun _ => 1) := by
  refine ⟨rfl, rfl, rfl, by decide, by decide, by decide, ?_⟩
  intro h
  have hd := congrArg (fun l => l.map (fun t => t.description)) h
  have e1 : (mock_get_transactions 0 (fun _ => 0) (fun _ => 0)).map (fun t => t.description) =
      ["Rent payment - Smith", "Rent payment - Smith", "Rent payment - Smith"] := rfl
  have e2 : (mock_get_transactions 0 (fun _ => 1) (fun _ => 1)).map (fun t => t.description) =
      ["Weekly rent", "Weekly rent", "Weekly rent"] := rfl
  simp only [e1, e2] at hd
  exact absurd hd (by decide)

/-- Witness for `amount_match_inclusive_boundary` at the boundary amount. -/
theorem amount_match_inclusive_boundary_witness :
    amount_match_check (855/2) 450 (450 * (5/100)) = true ↔
      |(855/2 : ℚ) - 450| ≤ 450 * (5/100) :=
  amount_match_inclusive_boundary.1 (855/2) 450 (450 * (5/100))
